import Mathlib

/-!
Verification of the exact-rational collision core of the pi-blocks
simulation (`simulation.py`).  The Python code keeps all physical
quantities as `fractions.Fraction` values; we embed them as `ℚ`.
Python's `Fraction.limit_denominator` (CPython's continued-fraction
convergent search) is embedded below as `limitDen`.
-/

/-- One iteration state of CPython's `Fraction.limit_denominator` loop.
`fuel` is only a structural-recursion bound; every call passes
`fuel = d`, which suffices because `d` strictly decreases each
iteration (`d` becomes `n mod d < d`).  The divisor `d` is positive in
every reachable iteration, so Euclidean division coincides with
Python's floor division.  Returns `(p0, q0, p1, q1, d)` at the break
point (the break fires before `d` can reach `0`, because the final
convergent's denominator is the full denominator, which exceeds
`maxD`). -/
def ldLoop (maxD : ℤ) : ℕ → ℤ → ℤ → ℤ → ℤ → ℤ → ℤ → ℤ × ℤ × ℤ × ℤ × ℤ
  | 0, _, d, p0, q0, p1, q1 => (p0, q0, p1, q1, d)
  | fuel + 1, n, d, p0, q0, p1, q1 =>
    if d = 0 then (p0, q0, p1, q1, d)
    else
      let a := Int.ediv n d
      let q2 := q0 + a * q1
      if maxD < q2 then (p0, q0, p1, q1, d)
      else ldLoop maxD fuel d (n - a * d) p1 q1 (p0 + a * p1) (q0 + a * q1)

/-- Embedding of CPython `Fraction.limit_denominator(maxD)`: the closest
rational with denominator at most `maxD`.  Python raises for
`maxD < 1`; every call site in `simulation.py` passes a cap of at least
`10^3`, so that branch is unreachable and we do not model it. -/
def limitDen (x : ℚ) (maxD : ℕ) : ℚ :=
  if x.den ≤ maxD then x
  else
    match ldLoop (maxD : ℤ) x.den x.num (x.den : ℤ) 0 1 1 0 with
    | (p0, q0, p1, q1, d) =>
      let k := Int.ediv ((maxD : ℤ) - q0) q1
      if 2 * d * (q0 + k * q1) ≤ (x.den : ℤ) then (p1 : ℚ) / (q1 : ℚ)
      else ((p0 + k * p1 : ℤ) : ℚ) / ((q0 + k * q1 : ℤ) : ℚ)

/-- `Block2D` from `simulation.py`: mass, velocity `v`, position `x`
and `size`, all exact rationals. -/
structure Block2D where
  mass : ℚ
  v : ℚ
  x : ℚ
  size : ℚ
deriving DecidableEq

/-- `Block2D.__init__`: every field is passed through
`limit_denominator(10**9)`.  The Python default for `size` is `30`;
call sites below pass it explicitly. -/
def Block2D.init (mass v x size : ℚ) : Block2D :=
  { mass := limitDen mass (10 ^ 9)
    v := limitDen v (10 ^ 9)
    x := limitDen x (10 ^ 9)
    size := limitDen size (10 ^ 9) }

/-- `Block2D.simplify`: cap the denominators of `v` and `x`; `mass` and
`size` are untouched. -/
def Block2D.simplify (b : Block2D) (max_denominator : ℕ) : Block2D :=
  { b with v := limitDen b.v max_denominator, x := limitDen b.x max_denominator }

/-- The collision classification strings returned by
`Simulation.detect_collisions` ("wall_0", "wall_1", "blocks"). -/
inductive CollisionType where
  | wall_0
  | wall_1
  | blocks
deriving DecidableEq

/-- The mutable state of `Simulation.__init__`. -/
structure Simulation where
  width : ℚ
  block_0 : Block2D
  block_1 : Block2D
  wall_collisions : ℕ
  block_collisions : ℕ
  total_collisions : ℕ
  time_step : ℚ
  simulation_speed : ℕ
  simplify_interval : ℕ
  simplify_counter : ℕ
  simplify_denominator : ℕ
  total_energy : ℚ
  total_momentum : ℚ
  initial_energy : ℚ
  initial_momentum : ℚ
  paused : Bool
deriving DecidableEq

/-- `Simulation._total_energy`: total kinetic energy of the current
blocks, capped with the hard-coded constant `10**9`. -/
def Simulation.total_energy_now (s : Simulation) : ℚ :=
  limitDen
    (s.block_0.mass * s.block_0.v ^ 2 / 2 + s.block_1.mass * s.block_1.v ^ 2 / 2)
    (10 ^ 9)

/-- `Simulation._total_momentum`: total momentum of the current blocks,
capped with the hard-coded constant `10**9`. -/
def Simulation.total_momentum_now (s : Simulation) : ℚ :=
  limitDen (s.block_0.mass * s.block_0.v + s.block_1.mass * s.block_1.v) (10 ^ 9)

/-- `Simulation.__init__(width)`. -/
def Simulation.init (width : ℚ) : Simulation :=
  let b0 := Block2D.init 1 0 150 30
  let b1 := Block2D.init 10000 (-5) 600 60
  let s : Simulation :=
    { width := width
      block_0 := b0
      block_1 := b1
      wall_collisions := 0
      block_collisions := 0
      total_collisions := 0
      time_step := limitDen (1 / 100) (10 ^ 9)
      simulation_speed := 2 ^ 8
      simplify_interval := 100
      simplify_counter := 0
      simplify_denominator := 10 ^ 9
      total_energy := 0
      total_momentum := 0
      initial_energy := 0
      initial_momentum := 0
      paused := false }
  let s := { s with total_energy := s.total_energy_now, total_momentum := s.total_momentum_now }
  { s with initial_energy := s.total_energy, initial_momentum := s.total_momentum }

/-- `Simulation.simplify_fractions`: cap both blocks and the time step
with the current `simplify_denominator`. -/
def Simulation.simplify_fractions (s : Simulation) : Simulation :=
  { s with
    block_0 := s.block_0.simplify s.simplify_denominator
    block_1 := s.block_1.simplify s.simplify_denominator
    time_step := limitDen s.time_step s.simplify_denominator }

/-- `Simulation.detect_collisions`: first-match classification of the
current state, or `none`.  The Python method only reads the state. -/
def Simulation.detect_collisions (s : Simulation) : Option CollisionType :=
  if s.block_0.x ≤ s.block_0.size / 2 ∧ s.block_0.v < 0 then some .wall_0
  else if s.block_1.x ≤ s.block_1.size / 2 ∧ s.block_1.v < 0 then some .wall_1
  else
    let min_distance := (s.block_0.size + s.block_1.size) / 2
    let actual_distance := s.block_1.x - s.block_0.x
    if actual_distance ≤ min_distance ∧ s.block_0.v > s.block_1.v then some .blocks
    else none

/-- The pre-cap elastic-collision velocity `new_v1` of
`Simulation.handle_collision` (block 0; `m1, v1` are block 0's mass and
velocity, `m2, v2` block 1's). -/
def new_v1 (m1 m2 v1 v2 : ℚ) : ℚ := ((m1 - m2) * v1 + 2 * m2 * v2) / (m1 + m2)

/-- The pre-cap elastic-collision velocity `new_v2` of
`Simulation.handle_collision` (block 1). -/
def new_v2 (m1 m2 v1 v2 : ℚ) : ℚ := ((m2 - m1) * v2 + 2 * m1 * v1) / (m1 + m2)

/-- `Simulation.handle_collision`.  The overlap-correction adjustments
`pos_adj1`/`pos_adj2` are hoisted out of the `if`: they are pure, so
this is the same state the Python produces. -/
def Simulation.handle_collision (s : Simulation) (collision_type : CollisionType) :
    Simulation :=
  let s' :=
    match collision_type with
    | .wall_0 =>
      { s with
        block_0 := { s.block_0 with v := -s.block_0.v, x := s.block_0.size / 2 }
        wall_collisions := s.wall_collisions + 1
        total_collisions := s.total_collisions + 1 }
    | .wall_1 =>
      { s with
        block_1 := { s.block_1 with v := -s.block_1.v, x := s.block_1.size / 2 }
        wall_collisions := s.wall_collisions + 1
        total_collisions := s.total_collisions + 1 }
    | .blocks =>
      let m1 := s.block_0.mass
      let m2 := s.block_1.mass
      let v1 := s.block_0.v
      let v2 := s.block_1.v
      let b0 := { s.block_0 with v := limitDen (new_v1 m1 m2 v1 v2) s.simplify_denominator }
      let b1 := { s.block_1 with v := limitDen (new_v2 m1 m2 v1 v2) s.simplify_denominator }
      let min_distance := (b0.size + b1.size) / 2
      let actual_distance := b1.x - b0.x
      let overlap := min_distance - actual_distance
      let total_mass := m1 + m2
      let pos_adj1 := limitDen (overlap * m2 / total_mass) s.simplify_denominator
      let pos_adj2 := limitDen (overlap * m1 / total_mass) s.simplify_denominator
      let b0 := if actual_distance < min_distance then { b0 with x := b0.x - pos_adj1 } else b0
      let b1 := if actual_distance < min_distance then { b1 with x := b1.x + pos_adj2 } else b1
      { s with
        block_0 := b0
        block_1 := b1
        block_collisions := s.block_collisions + 1
        total_collisions := s.total_collisions + 1 }
  { s' with
    total_energy := s'.total_energy_now
    total_momentum := s'.total_momentum_now }

/-- `Simulation.update`: one tick. -/
def Simulation.update (s : Simulation) : Simulation :=
  if s.paused then s
  else
    match s.detect_collisions with
    | some collision_type => s.handle_collision collision_type
    | none =>
      let s1 :=
        { s with
          block_0 := { s.block_0 with x := s.block_0.x + s.block_0.v * s.time_step }
          block_1 := { s.block_1 with x := s.block_1.x + s.block_1.v * s.time_step } }
      let s2 :=
        match s1.detect_collisions with
        | some collision_type => s1.handle_collision collision_type
        | none => s1
      let s3 := { s2 with simplify_counter := s2.simplify_counter + 1 }
      if s3.simplify_interval ≤ s3.simplify_counter then
        { s3.simplify_fractions with simplify_counter := 0 }
      else s3

/-- `Simulation.reset(mass_0, mass_1, v_1)` (Python defaults:
`1, 10000, -5`). -/
def Simulation.reset (s : Simulation) (mass_0 mass_1 v_1 : ℚ) : Simulation :=
  let s :=
    { s with
      block_0 := Block2D.init mass_0 0 150 30
      block_1 := Block2D.init mass_1 v_1 600 60
      wall_collisions := 0
      block_collisions := 0
      total_collisions := 0
      simplify_counter := 0 }
  let s := { s with total_energy := s.total_energy_now, total_momentum := s.total_momentum_now }
  { s with initial_energy := s.total_energy, initial_momentum := s.total_momentum }

/-- `Simulation.adjust_speed(increase)`. -/
def Simulation.adjust_speed (s : Simulation) (increase : Bool) : Simulation :=
  if increase then { s with simulation_speed := min 100000 (s.simulation_speed * 2) }
  else { s with simulation_speed := max 1 (s.simulation_speed / 2) }

/-- `Simulation.adjust_precision(increase)`: move the cap by a factor of
10 within `[10^3, 10^12]`, then simplify immediately. -/
def Simulation.adjust_precision (s : Simulation) (increase : Bool) : Simulation :=
  let s :=
    if increase then
      { s with simplify_denominator := min (10 ^ 12) (s.simplify_denominator * 10) }
    else
      { s with simplify_denominator := max (10 ^ 3) (s.simplify_denominator / 10) }
  s.simplify_fractions

/-! ## Helper lemmas -/

/-- `limit_denominator` is the identity on rationals whose denominator
already satisfies the cap (the early-return branch of CPython's
implementation). -/
theorem limitDen_eq_self {x : ℚ} {maxD : ℕ} (h : x.den ≤ maxD) : limitDen x maxD = x := by
  unfold limitDen
  exact if_pos h

/-- `handle_collision` bumps `total_collisions` by exactly one, and bumps
exactly one of `wall_collisions`/`block_collisions` by one. -/
theorem handle_collision_counters (s : Simulation) (ct : CollisionType) :
    (s.handle_collision ct).total_collisions = s.total_collisions + 1 ∧
    ((s.handle_collision ct).wall_collisions = s.wall_collisions + 1 ∧
        (s.handle_collision ct).block_collisions = s.block_collisions ∨
      (s.handle_collision ct).wall_collisions = s.wall_collisions ∧
        (s.handle_collision ct).block_collisions = s.block_collisions + 1) := by
  cases ct
  · exact ⟨rfl, Or.inl ⟨rfl, rfl⟩⟩
  · exact ⟨rfl, Or.inl ⟨rfl, rfl⟩⟩
  · exact ⟨rfl, Or.inr ⟨rfl, rfl⟩⟩

/-- One `update` call either leaves all three collision counters unchanged
or performs exactly one collision resolution (total + 1, and exactly one
of wall/block + 1). -/
theorem update_counters (s : Simulation) :
    ((s.update).total_collisions = s.total_collisions ∧
      (s.update).wall_collisions = s.wall_collisions ∧
      (s.update).block_collisions = s.block_collisions) ∨
    ((s.update).total_collisions = s.total_collisions + 1 ∧
      ((s.update).wall_collisions = s.wall_collisions + 1 ∧
          (s.update).block_collisions = s.block_collisions ∨
        (s.update).wall_collisions = s.wall_collisions ∧
          (s.update).block_collisions = s.block_collisions + 1)) := by
  unfold Simulation.update
  split
  · exact Or.inl ⟨rfl, rfl, rfl⟩
  · split
    · next ct _ => exact Or.inr (handle_collision_counters s ct)
    · dsimp only
      split
      · split
        · next ct _ => exact Or.inr (handle_collision_counters _ ct)
        · exact Or.inl ⟨rfl, rfl, rfl⟩
      · split
        · next ct _ => exact Or.inr (handle_collision_counters _ ct)
        · exact Or.inl ⟨rfl, rfl, rfl⟩

/-! ## Claim theorems -/

/-- C1: for a `Blocks` collision resolution with positive masses, the
pre-cap velocities `new_v1`/`new_v2` (exactly the expressions of
`handle_collision` before `limit_denominator` is applied) conserve
momentum exactly: `m1*new_v1 + m2*new_v2 = m1*v1 + m2*v2` in exact
rational arithmetic. -/
theorem C1_blocks_momentum_identity (m1 m2 v1 v2 : ℚ) (hm1 : 0 < m1) (hm2 : 0 < m2) :
    m1 * new_v1 m1 m2 v1 v2 + m2 * new_v2 m1 m2 v1 v2 = m1 * v1 + m2 * v2 := by
  have h : m1 + m2 ≠ 0 := by positivity
  unfold new_v1 new_v2
  field_simp
  ring

/-- Witness for C1 at the default masses and velocities. -/
theorem C1_blocks_momentum_identity_witness :
    (0:ℚ) < 1 ∧ (0:ℚ) < 10000 ∧
      1 * new_v1 1 10000 0 (-5) + 10000 * new_v2 1 10000 0 (-5) = 1 * 0 + 10000 * (-5) :=
  ⟨by norm_num, by norm_num,
    C1_blocks_momentum_identity 1 10000 0 (-5) (by norm_num) (by norm_num)⟩

/-- The `wall_0` condition of `detect_collisions`. -/
def wall0_condition (s : Simulation) : Prop :=
  s.block_0.x ≤ s.block_0.size / 2 ∧ s.block_0.v < 0

/-- The `wall_1` condition of `detect_collisions`. -/
def wall1_condition (s : Simulation) : Prop :=
  s.block_1.x ≤ s.block_1.size / 2 ∧ s.block_1.v < 0

/-- The `blocks` condition of `detect_collisions`. -/
def blocks_condition (s : Simulation) : Prop :=
  s.block_1.x - s.block_0.x ≤ (s.block_0.size + s.block_1.size) / 2 ∧
    s.block_0.v > s.block_1.v

/-- C4: `detect_collisions` is a pure function of the state (the
embedding is a function, matching the Python method, which only reads)
returning the first matching classification in the exact order
`wall_0`, `wall_1`, `blocks`, and `none` when no condition holds.
Returning an `Option` value, it yields at most one classification even
when several conditions hold simultaneously. -/
theorem C4_detect_priority (s : Simulation) :
    (s.detect_collisions = some .wall_0 ↔ wall0_condition s) ∧
    (s.detect_collisions = some .wall_1 ↔ ¬wall0_condition s ∧ wall1_condition s) ∧
    (s.detect_collisions = some .blocks ↔
      ¬wall0_condition s ∧ ¬wall1_condition s ∧ blocks_condition s) ∧
    (s.detect_collisions = none ↔
      ¬wall0_condition s ∧ ¬wall1_condition s ∧ ¬blocks_condition s) := by
  unfold Simulation.detect_collisions wall0_condition wall1_condition blocks_condition
  dsimp only
  split_ifs with h1 h2 h3 <;> simp_all

/-- C7: a `wall_0` resolution negates block 0's velocity exactly (no
capping), clamps its position to exactly `size/2`, and bumps
`wall_collisions` and `total_collisions` by exactly one; symmetrically
for `wall_1` and block 1. -/
theorem C7_wall_reflection_exact (s : Simulation) :
    ((s.handle_collision .wall_0).block_0.v = -s.block_0.v ∧
      (s.handle_collision .wall_0).block_0.x = s.block_0.size / 2 ∧
      (s.handle_collision .wall_0).wall_collisions = s.wall_collisions + 1 ∧
      (s.handle_collision .wall_0).total_collisions = s.total_collisions + 1) ∧
    ((s.handle_collision .wall_1).block_1.v = -s.block_1.v ∧
      (s.handle_collision .wall_1).block_1.x = s.block_1.size / 2 ∧
      (s.handle_collision .wall_1).wall_collisions = s.wall_collisions + 1 ∧
      (s.handle_collision .wall_1).total_collisions = s.total_collisions + 1) :=
  ⟨⟨rfl, rfl, rfl, rfl⟩, ⟨rfl, rfl, rfl, rfl⟩⟩

/-- C10: `reset` leaves `paused`, `simulation_speed` and
`simplify_denominator` untouched. -/
theorem C10_reset_preserves_tuning (s : Simulation) (mass_0 mass_1 v_1 : ℚ) :
    (s.reset mass_0 mass_1 v_1).paused = s.paused ∧
    (s.reset mass_0 mass_1 v_1).simulation_speed = s.simulation_speed ∧
    (s.reset mass_0 mass_1 v_1).simplify_denominator = s.simplify_denominator :=
  ⟨rfl, rfl, rfl⟩

/-- C8: with `paused = true`, any number of `update` calls leaves the
entire state (every field) unchanged. -/
theorem C8_pause_idempotent (s : Simulation) (h : s.paused = true) (n : ℕ) :
    Simulation.update^[n] s = s := by
  have h1 : s.update = s := by
    unfold Simulation.update
    simp [h]
  induction n with
  | zero => rfl
  | succ n ih => rw [Function.iterate_succ_apply, h1, ih]

/-- Witness for C8: three paused updates on a concrete paused state. -/
theorem C8_pause_idempotent_witness :
    ({ Simulation.init 1200 with paused := true } : Simulation).paused = true ∧
      Simulation.update^[3] { Simulation.init 1200 with paused := true } =
        ({ Simulation.init 1200 with paused := true } : Simulation) :=
  ⟨rfl, C8_pause_idempotent { Simulation.init 1200 with paused := true } rfl 3⟩

/-- C2 counterexample: `reset` with mass `-1` does not reject; it
constructs a state whose `block_0.mass` is the non-positive value `-1`. -/
theorem C2_counterexample :
    ((Simulation.init 1200).reset (-1) 10000 (-5)).block_0.mass = -1 ∧
      ¬ (0 < ((Simulation.init 1200).reset (-1) 10000 (-5)).block_0.mass) := by
  with_unfolding_all decide

/-- C2 (amended): neither `Block2D.__init__` nor `reset` validates its
arguments.  A non-positive mass or size (representable under the
`10^9` construction cap) is stored unchanged in the constructed block,
so the resulting state contains the non-positive value; no rejection
happens anywhere. -/
theorem C2_no_validation (s : Simulation) (mass v x size mass_0 mass_1 v_1 : ℚ)
    (hm : mass.den ≤ 10 ^ 9) (hsz : size.den ≤ 10 ^ 9) (hm0 : mass_0.den ≤ 10 ^ 9)
    (hmneg : mass ≤ 0) (hszneg : size ≤ 0) (hm0neg : mass_0 ≤ 0) :
    (Block2D.init mass v x size).mass = mass ∧ (Block2D.init mass v x size).mass ≤ 0 ∧
    (Block2D.init mass v x size).size = size ∧ (Block2D.init mass v x size).size ≤ 0 ∧
    (s.reset mass_0 mass_1 v_1).block_0.mass = mass_0 ∧
    (s.reset mass_0 mass_1 v_1).block_0.mass ≤ 0 := by
  have e1 : (Block2D.init mass v x size).mass = mass := limitDen_eq_self hm
  have e2 : (Block2D.init mass v x size).size = size := limitDen_eq_self hsz
  have e3 : (s.reset mass_0 mass_1 v_1).block_0.mass = mass_0 := limitDen_eq_self hm0
  exact ⟨e1, e1.trans_le hmneg, e2, e2.trans_le hszneg, e3, e3.trans_le hm0neg⟩

/-- Witness for C2 (amended) at mass `-1` and size `-2`. -/
theorem C2_no_validation_witness :
    ((-1 : ℚ).den ≤ 10 ^ 9 ∧ (-2 : ℚ).den ≤ 10 ^ 9 ∧ (-1 : ℚ) ≤ 0 ∧ (-2 : ℚ) ≤ 0) ∧
      (Block2D.init (-1) 0 150 (-2)).mass = -1 ∧
      ((Simulation.init 1200).reset (-1) 10000 (-5)).block_0.mass ≤ 0 :=
  ⟨⟨by with_unfolding_all decide, by with_unfolding_all decide, by norm_num, by norm_num⟩,
    (C2_no_validation (Simulation.init 1200) (-1) 0 150 (-2) (-1) 10000 (-5)
      (by with_unfolding_all decide) (by with_unfolding_all decide)
      (by with_unfolding_all decide) (by norm_num) (by norm_num) (by norm_num)).1,
    (C2_no_validation (Simulation.init 1200) (-1) 0 150 (-2) (-1) 10000 (-5)
      (by with_unfolding_all decide) (by with_unfolding_all decide)
      (by with_unfolding_all decide) (by norm_num) (by norm_num)
      (by norm_num)).2.2.2.2.2⟩

/-- The conservation-monitor recomputation as claim C3 states it: energy
capped with the CURRENT `simplify_denominator`.  (Modelled from the
spec's words; the source caps with the constant `10^9`.) -/
def spec_total_energy (s : Simulation) : ℚ :=
  limitDen (s.block_0.mass * s.block_0.v ^ 2 / 2 + s.block_1.mass * s.block_1.v ^ 2 / 2)
    s.simplify_denominator

/-- The momentum recomputation as claim C3 states it: capped with the
CURRENT `simplify_denominator`. -/
def spec_total_momentum (s : Simulation) : ℚ :=
  limitDen (s.block_0.mass * s.block_0.v + s.block_1.mass * s.block_1.v)
    s.simplify_denominator

/-- A concrete reachable state whose `simplify_denominator` has been
lowered to `10^8` by one `adjust_precision(decrease)` call, with a
velocity fine enough that the two caps differ. -/
def c3_state : Simulation :=
  ((Simulation.init 1200).reset 1 1 (-1 / 20000)).adjust_precision false

/-- C3 counterexample: on `c3_state` (cap `10^8`), the code's
recomputed energy is `1/800000000` (capped with the hard-coded `10^9`,
hence exact), while the claimed `bestApproximation` at the current cap
`10^8` is `0`. -/
theorem C3_counterexample : c3_state.total_energy_now ≠ spec_total_energy c3_state := by
  with_unfolding_all decide

/-- C3 (amended): `_total_energy`/`_total_momentum` always cap with the
constant `10^9`, so the claimed equations hold exactly on the states
whose `simplify_denominator` still equals its initial value `10^9`;
after `adjust_precision` changes the cap, recomputation still uses
`10^9`, not the current cap. -/
theorem C3_cap_is_fixed (s : Simulation) (h : s.simplify_denominator = 10 ^ 9) :
    s.total_energy_now = spec_total_energy s ∧
      s.total_momentum_now = spec_total_momentum s := by
  unfold Simulation.total_energy_now Simulation.total_momentum_now
    spec_total_energy spec_total_momentum
  rw [h]
  exact ⟨rfl, rfl⟩

/-- Witness for C3 (amended) at the freshly constructed state. -/
theorem C3_cap_is_fixed_witness :
    (Simulation.init 1200).simplify_denominator = 10 ^ 9 ∧
      (Simulation.init 1200).total_energy_now = spec_total_energy (Simulation.init 1200) :=
  ⟨rfl, (C3_cap_is_fixed (Simulation.init 1200) rfl).1⟩

/-- C9 counterexample: `reset` stores `limit_denominator(v_1, 10^9)`,
not `v_1` itself.  With `v_1 = 1/2000000001` (denominator above the
cap) the stored velocity differs from `v_1`. -/
theorem C9_counterexample :
    ((Simulation.init 1200).reset 1 10000 (1 / 2000000001)).block_1.v ≠ 1 / 2000000001 := by
  with_unfolding_all decide

/-- C9 (amended): after `reset(mass_0, mass_1, v_1)` all three collision
counters and `simplify_counter` are `0`; `block_0` sits at `x = 150`
with velocity `0`, `block_1` at `x = 600` with velocity
`limit_denominator(v_1, 10^9)` — equal to `v_1` itself whenever `v_1`'s
denominator is at most `10^9`; and `initial_energy`/`initial_momentum`
(and the caches `total_energy`/`total_momentum`) equal the freshly
recomputed conserved quantities of the new blocks. -/
theorem C9_reset_baseline (s : Simulation) (mass_0 mass_1 v_1 : ℚ)
    (hv : v_1.den ≤ 10 ^ 9) :
    (s.reset mass_0 mass_1 v_1).wall_collisions = 0 ∧
    (s.reset mass_0 mass_1 v_1).block_collisions = 0 ∧
    (s.reset mass_0 mass_1 v_1).total_collisions = 0 ∧
    (s.reset mass_0 mass_1 v_1).simplify_counter = 0 ∧
    (s.reset mass_0 mass_1 v_1).block_0.x = 150 ∧
    (s.reset mass_0 mass_1 v_1).block_0.v = 0 ∧
    (s.reset mass_0 mass_1 v_1).block_1.x = 600 ∧
    (s.reset mass_0 mass_1 v_1).block_1.v = v_1 ∧
    (s.reset mass_0 mass_1 v_1).initial_energy =
      (s.reset mass_0 mass_1 v_1).total_energy_now ∧
    (s.reset mass_0 mass_1 v_1).initial_momentum =
      (s.reset mass_0 mass_1 v_1).total_momentum_now ∧
    (s.reset mass_0 mass_1 v_1).total_energy =
      (s.reset mass_0 mass_1 v_1).total_energy_now ∧
    (s.reset mass_0 mass_1 v_1).total_momentum =
      (s.reset mass_0 mass_1 v_1).total_momentum_now := by
  refine ⟨rfl, rfl, rfl, rfl, ?_, ?_, ?_, limitDen_eq_self hv, rfl, rfl, rfl, rfl⟩
  · exact @limitDen_eq_self 150 (10 ^ 9) (by with_unfolding_all decide)
  · exact @limitDen_eq_self 0 (10 ^ 9) (by with_unfolding_all decide)
  · exact @limitDen_eq_self 600 (10 ^ 9) (by with_unfolding_all decide)

/-- Witness for C9 (amended) at the default reset arguments. -/
theorem C9_reset_baseline_witness :
    ((-5 : ℚ).den ≤ 10 ^ 9) ∧
      ((Simulation.init 1200).reset 1 10000 (-5)).total_collisions = 0 ∧
      ((Simulation.init 1200).reset 1 10000 (-5)).block_1.v = -5 :=
  ⟨by with_unfolding_all decide,
    (C9_reset_baseline (Simulation.init 1200) 1 10000 (-5)
      (by with_unfolding_all decide)).2.2.1,
    (C9_reset_baseline (Simulation.init 1200) 1 10000 (-5)
      (by with_unfolding_all decide)).2.2.2.2.2.2.2.1⟩

/-- C5: on a non-paused state a single `update` increases
`total_collisions` by at most one; every `handle_collision` call
increments it by exactly one; and when the pre-move detection fires,
`update` is exactly that resolution — it returns without adding
`velocity * time_step` to either block's position this tick. -/
theorem C5_update_at_most_one (s : Simulation) (h : s.paused = false) :
    (s.update).total_collisions ≤ s.total_collisions + 1 ∧
    (∀ ct : CollisionType,
      (s.handle_collision ct).total_collisions = s.total_collisions + 1) ∧
    (∀ ct : CollisionType,
      s.detect_collisions = some ct → s.update = s.handle_collision ct) := by
  refine ⟨?_, fun ct => (handle_collision_counters s ct).1, ?_⟩
  · rcases update_counters s with ⟨h1, _⟩ | ⟨h1, _⟩ <;> omega
  · intro ct hdet
    unfold Simulation.update
    rw [h, hdet]
    rfl

/-- Witness for C5 at the freshly constructed (running) state. -/
theorem C5_update_at_most_one_witness :
    (Simulation.init 1200).paused = false ∧
      ((Simulation.init 1200).update).total_collisions ≤
        (Simulation.init 1200).total_collisions + 1 :=
  ⟨rfl, (C5_update_at_most_one (Simulation.init 1200) rfl).1⟩

/-- The counter-consistency invariant of the spec:
`total_collisions = wall_collisions + block_collisions`. -/
def counters_ok (s : Simulation) : Prop :=
  s.total_collisions = s.wall_collisions + s.block_collisions

/-- C6: `total_collisions = wall_collisions + block_collisions` holds
after construction and after `reset`, and is preserved by `update`,
`adjust_speed` and `adjust_precision` (hence at every observable
point); moreover all three counters are non-decreasing across
`update`. -/
theorem C6_counter_consistency (w mass_0 mass_1 v_1 : ℚ) (s : Simulation)
    (increase : Bool) :
    counters_ok (Simulation.init w) ∧
    counters_ok (s.reset mass_0 mass_1 v_1) ∧
    (counters_ok s → counters_ok s.update) ∧
    (counters_ok s → counters_ok (s.adjust_speed increase)) ∧
    (counters_ok s → counters_ok (s.adjust_precision increase)) ∧
    s.total_collisions ≤ (s.update).total_collisions ∧
    s.wall_collisions ≤ (s.update).wall_collisions ∧
    s.block_collisions ≤ (s.update).block_collisions := by
  refine ⟨rfl, rfl, ?_, ?_, ?_, ?_, ?_, ?_⟩
  · intro h
    unfold counters_ok at h ⊢
    rcases update_counters s with ⟨h1, h2, h3⟩ | ⟨h1, ⟨h2, h3⟩ | ⟨h2, h3⟩⟩ <;> omega
  · intro h
    unfold Simulation.adjust_speed
    split <;> exact h
  · intro h
    unfold Simulation.adjust_precision
    dsimp only
    split <;> exact h
  · rcases update_counters s with ⟨h1, _⟩ | ⟨h1, _⟩ <;> omega
  · rcases update_counters s with ⟨_, h2, _⟩ | ⟨_, ⟨h2, _⟩ | ⟨h2, _⟩⟩ <;> omega
  · rcases update_counters s with ⟨_, _, h3⟩ | ⟨_, ⟨_, h3⟩ | ⟨_, h3⟩⟩ <;> omega

/-- Witness for C6: the invariant at the initial state, carried through
one update. -/
theorem C6_counter_consistency_witness :
    counters_ok (Simulation.init 1200) ∧ counters_ok ((Simulation.init 1200).update) := by
  have h := C6_counter_consistency 1200 1 10000 (-5) (Simulation.init 1200) true
  exact ⟨h.1, h.2.2.1 h.1⟩
